import Mathlib

/-!
Shallow embedding of the `hs_timer` module (src/hs_timer.c, src/hs_timer.h).

The C object `struct _hs_timer` is a state machine guarded by a mutex; every
public operation runs entirely under the lock, so each C function is embedded
as a pure transition on a `Timer` record.  The POSIX timer collaborator
(`timer_create` / `timer_settime` / `timer_delete`) is modelled by an
`alarm : Option Itimerspec` field — `some spec` means the timer owns a POSIX
timer currently programmed with `spec`, `none` means no POSIX timer is owned —
together with boolean oracle parameters for the fallible external calls
(`create_ok` for `timer_create`, `settime_ok` for `timer_settime`).
A `NULL` object handle is `none : Option Timer`; a freed object is `none` in
the result.  Callback function pointers and `const void *` user data are
modelled as `Option Nat` (pointer identity, `none` = `NULL`).
-/

/-- `UINT32_MAX`, the `HS_TIMER_REPEAT_FOREVER` sentinel (hs_timer.h line 24). -/
def UINT32_MAX : Nat := 2 ^ 32 - 1

/-- The `hs_timer_status_e` enumeration (hs_timer.c lines 21-27). -/
inductive Status where
  | created
  | running
  | paused
  | requestDestroy
deriving DecidableEq, Repr

/-- A `struct itimerspec`: interval and value, each seconds/nanoseconds. -/
structure Itimerspec where
  it_interval_tv_sec : Nat
  it_interval_tv_nsec : Nat
  it_value_tv_sec : Nat
  it_value_tv_nsec : Nat
deriving DecidableEq, Repr

/-- The all-zero `itimerspec`; programming it disarms the POSIX timer. -/
def zeroSpec : Itimerspec := ⟨0, 0, 0, 0⟩

/-- The `struct _hs_timer` object (hs_timer.c lines 30-39).  `alarm` stands for
the owned `timer_id` and its current programming (`none` = no POSIX timer
owned, as before `timer_create` or after `timer_delete`). -/
structure Timer where
  alarm : Option Itimerspec
  status : Status
  timer_cb : Option Nat
  repeat_count : Nat
  timeout_ms : Nat
  user_data : Option Nat
deriving DecidableEq, Repr

/-- `hs_timer_can_set_params` (hs_timer.c lines 49-63): true exactly in the
`CREATED`, `RUNNING`, `PAUSED` states; false for a `NULL` object. -/
def hs_timer_can_set_params : Option Timer → Bool
  | none => false
  | some t =>
    if t.status = .created ∨ t.status = .running ∨ t.status = .paused then true else false

/-- `hs_timer_ms_to_timespec_one_shot` (hs_timer.c lines 76-91): `-1` on a
`NULL` output struct (`timer_spec_null = true`); otherwise zero interval,
`ms / 1000` seconds and `(ms % 1000) * 1000000` nanoseconds, returning 0. -/
def hs_timer_ms_to_timespec_one_shot (ms : Nat) (timer_spec_null : Bool) :
    Int × Option Itimerspec :=
  if timer_spec_null then (-1, none)
  else (0, some ⟨0, 0, ms / 1000, ms % 1000 * 1000000⟩)

/-- The repeat-count decrement performed by `hs_timer_thread` before the user
callback is invoked (hs_timer.c lines 119-128): a finite positive
`repeat_count` is decremented once, and reaching zero switches the status to
`REQUEST_DESTROY`; zero and the `UINT32_MAX` sentinel are left untouched. -/
def hs_timer_decrement_step (t : Timer) : Timer :=
  if 0 < t.repeat_count ∧ t.repeat_count < UINT32_MAX then
    let rc := t.repeat_count - 1
    { t with repeat_count := rc,
             status := if rc = 0 then .requestDestroy else t.status }
  else t

/-- `hs_timer_thread` (hs_timer.c lines 98-164), the one-shot firing handler.
Returns whether the user callback was invoked, and the surviving object
(`none` = the object was torn down: `timer_delete`, mutex destroyed, freed).
`settime_ok` is the outcome of the final `timer_settime` rearm, whose return
value the C code ignores (line 160). -/
def hs_timer_thread (t? : Option Timer) (settime_ok : Bool) : Bool × Option Timer :=
  match t? with
  | none => (false, none)
  | some t =>
    if t.status = .requestDestroy then (false, none)
    else
      let t := hs_timer_decrement_step t
      let fired := t.timer_cb.isSome
      if t.status = .requestDestroy ∨ t.repeat_count = 0 then (fired, none)
      else if t.status = .running ∧ t.repeat_count ≠ 0 then
        let conv := hs_timer_ms_to_timespec_one_shot t.timeout_ms false
        if conv.1 ≠ 0 then (fired, some t)
        else (fired, some { t with alarm := if settime_ok then conv.2 else t.alarm })
      else (fired, some t)

/-- `hs_timer_create` (hs_timer.c lines 166-182): `none` when `malloc` fails;
otherwise a `CREATED` object with no callback, `repeat_count = -1` stored into
a `uint32_t` (hence `UINT32_MAX`), zero timeout and `NULL` user data. -/
def hs_timer_create (malloc_ok : Bool) : Option Timer :=
  if malloc_ok then
    some { alarm := none, status := .created, timer_cb := none,
           repeat_count := UINT32_MAX, timeout_ms := 0, user_data := none }
  else none

/-- `hs_timer_init` (hs_timer.c lines 184-239).  A non-`CREATED` object first
has its old POSIX timer deleted (line 197); then `timer_create` (oracle
`create_ok`, error `-3`), the millisecond conversion (error `-4`, dead branch
since the output struct is a local), `timer_settime` (oracle `settime_ok`,
error `-5`, deleting the fresh timer), and on success the status becomes
`RUNNING` and all four parameters are stored. -/
def hs_timer_init (t? : Option Timer) (timer_cb : Option Nat)
    (repeat_count timeout_ms : Nat) (user_data : Option Nat)
    (create_ok settime_ok : Bool) : Int × Option Timer :=
  match t? with
  | none => (-1, none)
  | some t0 =>
    let t := if t0.status ≠ .created then { t0 with alarm := none } else t0
    if ¬ create_ok then (-3, some t)
    else
      let t := { t with alarm := some zeroSpec }
      let conv := hs_timer_ms_to_timespec_one_shot timeout_ms false
      if conv.1 ≠ 0 then (-4, some { t with alarm := none })
      else if ¬ settime_ok then (-5, some { t with alarm := none })
      else (0, some { t with alarm := conv.2, status := .running,
                             timer_cb := timer_cb, repeat_count := repeat_count,
                             timeout_ms := timeout_ms, user_data := user_data })

/-- `hs_timer_destroy` (hs_timer.c lines 241-297): `CREATED` and `PAUSED`
objects are freed synchronously; a `RUNNING` object is only marked
`REQUEST_DESTROY`; a `REQUEST_DESTROY` object is left alone.  Every branch of
the (exhaustive) status switch returns 0. -/
def hs_timer_destroy (t? : Option Timer) : Int × Option Timer :=
  match t? with
  | none => (-1, none)
  | some t =>
    match t.status with
    | .created => (0, none)
    | .running => (0, some { t with status := .requestDestroy })
    | .paused => (0, none)
    | .requestDestroy => (0, some t)

/-- `hs_timer_set_cb` (hs_timer.c lines 299-318). -/
def hs_timer_set_cb (t? : Option Timer) (timer_cb : Option Nat) : Int × Option Timer :=
  match t? with
  | none => (-1, none)
  | some t =>
    if ¬ hs_timer_can_set_params (some t) then (-2, some t)
    else (0, some { t with timer_cb := timer_cb })

/-- `hs_timer_set_repeat_count` (hs_timer.c lines 320-339). -/
def hs_timer_set_repeat_count (t? : Option Timer) (repeat_count : Nat) : Int × Option Timer :=
  match t? with
  | none => (-1, none)
  | some t =>
    if ¬ hs_timer_can_set_params (some t) then (-2, some t)
    else (0, some { t with repeat_count := repeat_count })

/-- `hs_timer_set_timeout` (hs_timer.c lines 341-375): after the state check,
converts the new timeout (error `-3`, dead branch) and reprograms the live
POSIX timer (oracle `settime_ok`, error `-4`), then stores `timeout_ms`. -/
def hs_timer_set_timeout (t? : Option Timer) (timeout_ms : Nat) (settime_ok : Bool) :
    Int × Option Timer :=
  match t? with
  | none => (-1, none)
  | some t =>
    if ¬ hs_timer_can_set_params (some t) then (-2, some t)
    else
      let conv := hs_timer_ms_to_timespec_one_shot timeout_ms false
      if conv.1 ≠ 0 then (-3, some t)
      else if ¬ settime_ok then (-4, some t)
      else (0, some { t with alarm := conv.2, timeout_ms := timeout_ms })

/-- `hs_timer_set_user_data` (hs_timer.c lines 377-396). -/
def hs_timer_set_user_data (t? : Option Timer) (user_data : Option Nat) : Int × Option Timer :=
  match t? with
  | none => (-1, none)
  | some t =>
    if ¬ hs_timer_can_set_params (some t) then (-2, some t)
    else (0, some { t with user_data := user_data })

/-- `hs_timer_get_repeat_count` (hs_timer.c lines 398-410); the out-parameter
is returned as the second component. -/
def hs_timer_get_repeat_count (t? : Option Timer) : Int × Option Nat :=
  match t? with
  | none => (-1, none)
  | some t => (0, some t.repeat_count)

/-- `hs_timer_get_timeout` (hs_timer.c lines 412-424). -/
def hs_timer_get_timeout (t? : Option Timer) : Int × Option Nat :=
  match t? with
  | none => (-1, none)
  | some t => (0, some t.timeout_ms)

/-- `hs_timer_get_user_data` (hs_timer.c lines 426-438): `NULL` for a `NULL`
object, otherwise the stored pointer (itself possibly `NULL`). -/
def hs_timer_get_user_data (t? : Option Timer) : Option Nat :=
  match t? with
  | none => none
  | some t => t.user_data

/-- `hs_timer_ready` (hs_timer.c lines 440-472): only in `RUNNING`/`PAUSED`;
programs a 1-nanosecond one-shot (lines 456-460) and sets `RUNNING`. -/
def hs_timer_ready (t? : Option Timer) (settime_ok : Bool) : Int × Option Timer :=
  match t? with
  | none => (-1, none)
  | some t =>
    if t.status ≠ .running ∧ t.status ≠ .paused then (-2, some t)
    else if ¬ settime_ok then (-3, some t)
    else (0, some { t with alarm := some ⟨0, 0, 0, 1⟩, status := .running })

/-- `hs_timer_pause` (hs_timer.c lines 474-501): only in `RUNNING`/`PAUSED`;
programs the all-zero spec (disarming the countdown) and sets `PAUSED`. -/
def hs_timer_pause (t? : Option Timer) (settime_ok : Bool) : Int × Option Timer :=
  match t? with
  | none => (-1, none)
  | some t =>
    if t.status ≠ .running ∧ t.status ≠ .paused then (-2, some t)
    else if ¬ settime_ok then (-3, some t)
    else (0, some { t with alarm := some zeroSpec, status := .paused })

/-- `hs_timer_resume` (hs_timer.c lines 503-537): only in `PAUSED`; rearms a
one-shot for the stored `timeout_ms` and sets `RUNNING`. -/
def hs_timer_resume (t? : Option Timer) (settime_ok : Bool) : Int × Option Timer :=
  match t? with
  | none => (-1, none)
  | some t =>
    if t.status ≠ .paused then (-2, some t)
    else
      let conv := hs_timer_ms_to_timespec_one_shot t.timeout_ms false
      if conv.1 ≠ 0 then (-3, some t)
      else if ¬ settime_ok then (-4, some t)
      else (0, some { t with alarm := conv.2, status := .running })

/-- `hs_timer_is_paused` (hs_timer.c lines 539-551). -/
def hs_timer_is_paused (t? : Option Timer) : Bool :=
  match t? with
  | none => false
  | some t => if t.status = .paused then true else false

/-- Iterates the firing handler `k` times from a given object, counting how
many of the firings invoked the user callback. -/
def hs_timer_run (t? : Option Timer) (settime_ok : Bool) : Nat → Nat × Option Timer
  | 0 => (0, t?)
  | k + 1 =>
    let r := hs_timer_thread t? settime_ok
    let rest := hs_timer_run r.2 settime_ok k
    ((if r.1 then 1 else 0) + rest.1, rest.2)

/-- A timer object in the `REQUEST_DESTROY` state with arbitrary field
contents; used to quantify over all pending-destroy states. -/
def pendingDestroyTimer (al : Option Itimerspec) (cb : Option Nat) (rc ms : Nat)
    (ud : Option Nat) : Timer :=
  ⟨al, .requestDestroy, cb, rc, ms, ud⟩

/-- Claim C10: for a non-null output struct and any `uint32` millisecond value,
`hs_timer_ms_to_timespec_one_shot` returns 0 with a zero `it_interval`,
`it_value.tv_sec = ms / 1000` and `it_value.tv_nsec = (ms % 1000) * 1000000`;
the arithmetic stays far below any overflow bound (`tv_nsec < 10^9`,
`tv_sec ≤ 4294967`), and `ms = 0` yields the all-zero `itimerspec` that
`timer_settime` treats as a disarm rather than a one-shot arm. -/
theorem ms_to_timespec_one_shot_exact (ms : Nat) (h : ms < 2 ^ 32) :
    hs_timer_ms_to_timespec_one_shot ms false =
      (0, some ⟨0, 0, ms / 1000, ms % 1000 * 1000000⟩) ∧
    ms % 1000 * 1000000 < 1000000000 ∧
    ms / 1000 ≤ 4294967 ∧
    hs_timer_ms_to_timespec_one_shot 0 false = (0, some zeroSpec) := by
  refine ⟨rfl, by omega, by omega, rfl⟩

/-- Witness for C10 at `ms = 2500`. -/
theorem ms_to_timespec_one_shot_exact_witness :
    (2500 : Nat) < 2 ^ 32 ∧
    hs_timer_ms_to_timespec_one_shot 2500 false =
      (0, some ⟨0, 0, 2500 / 1000, 2500 % 1000 * 1000000⟩) :=
  ⟨by norm_num, (ms_to_timespec_one_shot_exact 2500 (by norm_num)).1⟩

/-- Claim C6: `hs_timer_destroy` on a non-null object returns 0 in every
state: `CREATED` and `PAUSED` free synchronously (result `none`), `RUNNING`
only marks `REQUEST_DESTROY`, `REQUEST_DESTROY` is a no-op; and a second
destroy after destroy-from-`RUNNING` also returns 0 (idempotent). -/
theorem destroy_never_fails (t : Timer) :
    hs_timer_destroy (some t) =
      (0, match t.status with
          | .created => none
          | .running => some { t with status := .requestDestroy }
          | .paused => none
          | .requestDestroy => some t) ∧
    hs_timer_destroy ((hs_timer_destroy (some { t with status := .running })).2) =
      (0, some { t with status := .requestDestroy }) := by
  obtain ⟨al, st, cb, rc, ms, ud⟩ := t
  cases st <;> exact ⟨rfl, rfl⟩

/-- Claim C4: on a timer in the `REQUEST_DESTROY` state, each of
`set_cb`, `set_repeat_count`, `set_timeout`, `set_user_data`, `pause`,
`resume` and `ready` returns `-2` (invalid state) and leaves the object
bit-for-bit unchanged. -/
theorem pending_destroy_rejects_all (al : Option Itimerspec) (cb0 : Option Nat)
    (rc0 ms0 : Nat) (ud0 : Option Nat) (cb : Option Nat) (rc ms : Nat)
    (ud : Option Nat) (ok : Bool) :
    hs_timer_set_cb (some (pendingDestroyTimer al cb0 rc0 ms0 ud0)) cb =
      (-2, some (pendingDestroyTimer al cb0 rc0 ms0 ud0)) ∧
    hs_timer_set_repeat_count (some (pendingDestroyTimer al cb0 rc0 ms0 ud0)) rc =
      (-2, some (pendingDestroyTimer al cb0 rc0 ms0 ud0)) ∧
    hs_timer_set_timeout (some (pendingDestroyTimer al cb0 rc0 ms0 ud0)) ms ok =
      (-2, some (pendingDestroyTimer al cb0 rc0 ms0 ud0)) ∧
    hs_timer_set_user_data (some (pendingDestroyTimer al cb0 rc0 ms0 ud0)) ud =
      (-2, some (pendingDestroyTimer al cb0 rc0 ms0 ud0)) ∧
    hs_timer_pause (some (pendingDestroyTimer al cb0 rc0 ms0 ud0)) ok =
      (-2, some (pendingDestroyTimer al cb0 rc0 ms0 ud0)) ∧
    hs_timer_resume (some (pendingDestroyTimer al cb0 rc0 ms0 ud0)) ok =
      (-2, some (pendingDestroyTimer al cb0 rc0 ms0 ud0)) ∧
    hs_timer_ready (some (pendingDestroyTimer al cb0 rc0 ms0 ud0)) ok =
      (-2, some (pendingDestroyTimer al cb0 rc0 ms0 ud0)) :=
  ⟨rfl, rfl, rfl, rfl, rfl, rfl, rfl⟩

/-- Claim C1 counterexample: `hs_timer_init` performs no state check, so
calling it on a timer whose status is already `REQUEST_DESTROY` succeeds
(given a cooperating alarm service) and moves the status back to `RUNNING` —
an observable transition out of the pending-destroy state. -/
theorem init_escapes_pending_destroy :
    hs_timer_init (some ⟨some zeroSpec, .requestDestroy, some 1, 5, 100, none⟩)
        (some 2) 3 50 none true true =
      (0, some ⟨some ⟨0, 0, 0, 50000000⟩, .running, some 2, 3, 50, none⟩) := by
  decide

/-- Claim C1 (amended): once the status is `REQUEST_DESTROY`, no public
operation other than `hs_timer_init` (which performs no state check and may
re-arm the object) can move the status back to `RUNNING` or `PAUSED`:
`destroy` and every setter, `pause`, `resume` and `ready` leave the object
unchanged, and the firing handler tears it down. -/
theorem pending_destroy_monotone (al : Option Itimerspec) (cb0 : Option Nat)
    (rc0 ms0 : Nat) (ud0 : Option Nat) (cb : Option Nat) (rc ms : Nat)
    (ud : Option Nat) (ok : Bool) :
    (hs_timer_destroy (some (pendingDestroyTimer al cb0 rc0 ms0 ud0))).2 =
      some (pendingDestroyTimer al cb0 rc0 ms0 ud0) ∧
    (hs_timer_set_cb (some (pendingDestroyTimer al cb0 rc0 ms0 ud0)) cb).2 =
      some (pendingDestroyTimer al cb0 rc0 ms0 ud0) ∧
    (hs_timer_set_repeat_count (some (pendingDestroyTimer al cb0 rc0 ms0 ud0)) rc).2 =
      some (pendingDestroyTimer al cb0 rc0 ms0 ud0) ∧
    (hs_timer_set_timeout (some (pendingDestroyTimer al cb0 rc0 ms0 ud0)) ms ok).2 =
      some (pendingDestroyTimer al cb0 rc0 ms0 ud0) ∧
    (hs_timer_set_user_data (some (pendingDestroyTimer al cb0 rc0 ms0 ud0)) ud).2 =
      some (pendingDestroyTimer al cb0 rc0 ms0 ud0) ∧
    (hs_timer_pause (some (pendingDestroyTimer al cb0 rc0 ms0 ud0)) ok).2 =
      some (pendingDestroyTimer al cb0 rc0 ms0 ud0) ∧
    (hs_timer_resume (some (pendingDestroyTimer al cb0 rc0 ms0 ud0)) ok).2 =
      some (pendingDestroyTimer al cb0 rc0 ms0 ud0) ∧
    (hs_timer_ready (some (pendingDestroyTimer al cb0 rc0 ms0 ud0)) ok).2 =
      some (pendingDestroyTimer al cb0 rc0 ms0 ud0) ∧
    (hs_timer_thread (some (pendingDestroyTimer al cb0 rc0 ms0 ud0)) ok).2 = none :=
  ⟨rfl, rfl, rfl, rfl, rfl, rfl, rfl, rfl, rfl⟩

/-- Evaluation of `hs_timer_init` when `timer_create` fails: error `-3`, and
the object keeps its alarm only if it was still `CREATED` (a non-`CREATED`
object had its old alarm deleted before the failing `timer_create`). -/
theorem init_eval_createFail (t : Timer) (cb : Option Nat) (rc ms : Nat)
    (ud : Option Nat) (sok : Bool) :
    hs_timer_init (some t) cb rc ms ud false sok =
      (-3, some (if t.status = .created then t else { t with alarm := none })) := by
  by_cases ht : t.status = .created <;> simp [hs_timer_init, ht]

/-- Evaluation of `hs_timer_init` when `timer_settime` fails: error `-5`, the
freshly created timer is deleted again, so the object owns no alarm. -/
theorem init_eval_settimeFail (t : Timer) (cb : Option Nat) (rc ms : Nat)
    (ud : Option Nat) :
    hs_timer_init (some t) cb rc ms ud true false =
      (-5, some { t with alarm := none }) := by
  by_cases ht : t.status = .created <;>
    simp [hs_timer_init, hs_timer_ms_to_timespec_one_shot, ht]

/-- Evaluation of `hs_timer_init` when both external calls succeed: returns 0,
arms the one-shot for `ms`, sets `RUNNING` and stores the four parameters. -/
theorem init_eval_success (t : Timer) (cb : Option Nat) (rc ms : Nat)
    (ud : Option Nat) :
    hs_timer_init (some t) cb rc ms ud true true =
      (0, some { t with alarm := some ⟨0, 0, ms / 1000, ms % 1000 * 1000000⟩,
                        status := .running, timer_cb := cb, repeat_count := rc,
                        timeout_ms := ms, user_data := ud }) := by
  by_cases ht : t.status = .created <;>
    simp [hs_timer_init, hs_timer_ms_to_timespec_one_shot, ht]

/-- Claim C3 counterexample: for a timer already initialized (`RUNNING`, alarm
owned), a failing `timer_create` inside `hs_timer_init` returns `-3` but the
previously owned alarm has already been released — alarm ownership is *not*
left exactly as it was before the call. -/
theorem init_failure_releases_old_alarm :
    hs_timer_init (some ⟨some zeroSpec, .running, some 1, 5, 100, none⟩)
        (some 2) 3 50 none false true =
      (-3, some ⟨none, .running, some 1, 5, 100, none⟩) := by
  decide

/-- Claim C3 (amended): on any failing outcome `hs_timer_init` returns a
negative code and leaves `status`, `callback`, `repeat_count`, `timeout_ms`
and `user_data` unchanged; alarm ownership is preserved only when
`timer_create` fails on a still-`CREATED` timer — re-initialization releases
the pre-existing alarm before creating the new one, and a `timer_settime`
failure releases the fresh alarm, so in every other failing case the object
owns no alarm afterwards.  On success the status becomes `RUNNING` and all
four supplied parameters are stored, with the alarm armed for `timeout_ms`. -/
theorem init_spec (t : Timer) (cb : Option Nat) (rc ms : Nat) (ud : Option Nat)
    (cok sok : Bool) (hfail : cok = false ∨ sok = false) :
    ((hs_timer_init (some t) cb rc ms ud cok sok).1 < 0 ∧
      ∃ u, (hs_timer_init (some t) cb rc ms ud cok sok).2 = some u ∧
        u.status = t.status ∧ u.timer_cb = t.timer_cb ∧
        u.repeat_count = t.repeat_count ∧ u.timeout_ms = t.timeout_ms ∧
        u.user_data = t.user_data ∧
        u.alarm = (if cok = false ∧ t.status = .created then t.alarm else none)) ∧
    hs_timer_init (some t) cb rc ms ud true true =
      (0, some { t with alarm := some ⟨0, 0, ms / 1000, ms % 1000 * 1000000⟩,
                        status := .running, timer_cb := cb, repeat_count := rc,
                        timeout_ms := ms, user_data := ud }) := by
  refine ⟨?_, init_eval_success t cb rc ms ud⟩
  rcases hfail with hc | hso
  · subst hc
    rw [init_eval_createFail t cb rc ms ud sok]
    by_cases ht : t.status = .created
    · rw [if_pos ht]
      exact ⟨by norm_num, t, rfl, rfl, rfl, rfl, rfl, rfl, by simp [ht]⟩
    · rw [if_neg ht]
      exact ⟨by norm_num, { t with alarm := none }, rfl, rfl, rfl, rfl, rfl, rfl,
        by simp [ht]⟩
  · cases cok
    · rw [init_eval_createFail t cb rc ms ud sok]
      by_cases ht : t.status = .created
      · rw [if_pos ht]
        exact ⟨by norm_num, t, rfl, rfl, rfl, rfl, rfl, rfl, by simp [ht]⟩
      · rw [if_neg ht]
        exact ⟨by norm_num, { t with alarm := none }, rfl, rfl, rfl, rfl, rfl, rfl,
          by simp [ht]⟩
    · subst hso
      rw [init_eval_settimeFail t cb rc ms ud]
      exact ⟨by norm_num, { t with alarm := none }, rfl, rfl, rfl, rfl, rfl, rfl,
        by simp⟩

/-- Witness for C3 at a concrete `RUNNING` timer with a failing
`timer_create`. -/
theorem init_spec_witness :
    (hs_timer_init (some ⟨some zeroSpec, .running, some 1, 5, 100, none⟩)
        (some 2) 3 50 none false true).1 < 0 :=
  (init_spec ⟨some zeroSpec, .running, some 1, 5, 100, none⟩
      (some 2) 3 50 none false true (Or.inl rfl)).1.1

/-- Claim C7: on a `RUNNING` or `PAUSED` timer, `hs_timer_ready` (with the
alarm reprogram succeeding) returns 0, sets `RUNNING`, reprograms the alarm to
the minimal nonzero delay of one nanosecond, and changes no other field; in
any other state it returns `-2` (invalid state) and changes nothing,
regardless of the alarm service. -/
theorem ready_spec (t : Timer) (ok : Bool) :
    (t.status = .running ∨ t.status = .paused →
      hs_timer_ready (some t) true =
        (0, some { t with alarm := some ⟨0, 0, 0, 1⟩, status := .running })) ∧
    (t.status ≠ .running → t.status ≠ .paused →
      hs_timer_ready (some t) ok = (-2, some t)) := by
  constructor
  · rintro (h | h) <;> simp [hs_timer_ready, h]
  · intro h1 h2
    simp [hs_timer_ready, h1, h2]

/-- Witness for C7: `ready` on a concrete `PAUSED` timer, and its rejection on
a concrete `CREATED` timer. -/
theorem ready_spec_witness :
    hs_timer_ready (some ⟨some zeroSpec, .paused, some 1, 7, 100, none⟩) true =
      (0, some ⟨some ⟨0, 0, 0, 1⟩, .running, some 1, 7, 100, none⟩) ∧
    hs_timer_ready (some ⟨none, .created, none, 0, 0, none⟩) true =
      (-2, some ⟨none, .created, none, 0, 0, none⟩) :=
  ⟨(ready_spec ⟨some zeroSpec, .paused, some 1, 7, 100, none⟩ true).1 (Or.inr rfl),
   (ready_spec ⟨none, .created, none, 0, 0, none⟩ true).2 (by decide) (by decide)⟩

/-- Claim C8: a successful setter round-trips with its getter, with no
intervening operation: `set_timeout ms` then `get_timeout` yields `ms`,
`set_repeat_count rc` then `get_repeat_count` yields `rc`, and
`set_user_data ud` then `get_user_data` returns `ud`. -/
theorem set_get_roundtrip (t : Timer) (rc ms : Nat) (ud : Option Nat)
    (h : hs_timer_can_set_params (some t) = true) :
    (hs_timer_set_timeout (some t) ms true).1 = 0 ∧
    hs_timer_get_timeout (hs_timer_set_timeout (some t) ms true).2 = (0, some ms) ∧
    (hs_timer_set_repeat_count (some t) rc).1 = 0 ∧
    hs_timer_get_repeat_count (hs_timer_set_repeat_count (some t) rc).2 = (0, some rc) ∧
    (hs_timer_set_user_data (some t) ud).1 = 0 ∧
    hs_timer_get_user_data (hs_timer_set_user_data (some t) ud).2 = ud := by
  simp [hs_timer_set_timeout, hs_timer_set_repeat_count, hs_timer_set_user_data,
        hs_timer_get_timeout, hs_timer_get_repeat_count, hs_timer_get_user_data,
        hs_timer_ms_to_timespec_one_shot, h]

/-- Witness for C8 with the spec's concrete values 500, 3 and a user pointer. -/
theorem set_get_roundtrip_witness :
    hs_timer_get_timeout
        (hs_timer_set_timeout (some ⟨some zeroSpec, .running, some 1, 5, 100, none⟩)
          500 true).2 = (0, some 500) ∧
    hs_timer_get_repeat_count
        (hs_timer_set_repeat_count (some ⟨some zeroSpec, .running, some 1, 5, 100, none⟩)
          3).2 = (0, some 3) ∧
    hs_timer_get_user_data
        (hs_timer_set_user_data (some ⟨some zeroSpec, .running, some 1, 5, 100, none⟩)
          (some 42)).2 = some 42 :=
  have h := set_get_roundtrip ⟨some zeroSpec, .running, some 1, 5, 100, none⟩
    3 500 (some 42) rfl
  ⟨h.2.1, h.2.2.2.1, h.2.2.2.2.2⟩

/-- Claim C5: at the decrement point of the firing handler (status not yet
`REQUEST_DESTROY`), a finite positive `repeat_count` is decremented exactly
once — before the callback runs, since `hs_timer_thread` applies
`hs_timer_decrement_step` and only then invokes the callback — and the status
becomes `REQUEST_DESTROY` exactly when the decrement reaches zero; the
`UINT32_MAX` sentinel is never decremented; a zero count is left untouched,
so the counter never underflows past zero. -/
theorem decrement_spec (t : Timer) (h : t.status ≠ .requestDestroy) :
    (t.repeat_count = UINT32_MAX → hs_timer_decrement_step t = t) ∧
    (t.repeat_count = 0 → hs_timer_decrement_step t = t) ∧
    (0 < t.repeat_count → t.repeat_count < UINT32_MAX →
      (hs_timer_decrement_step t).repeat_count = t.repeat_count - 1 ∧
      ((hs_timer_decrement_step t).status = .requestDestroy ↔ t.repeat_count = 1)) ∧
    (hs_timer_decrement_step t).repeat_count ≤ t.repeat_count := by
  refine ⟨?_, ?_, ?_, ?_⟩
  · intro hmax
    simp [hs_timer_decrement_step, hmax]
  · intro h0
    simp [hs_timer_decrement_step, h0]
  · intro h1 h2
    rw [hs_timer_decrement_step, if_pos ⟨h1, h2⟩]
    refine ⟨rfl, ?_⟩
    show (if t.repeat_count - 1 = 0 then Status.requestDestroy else t.status) =
        Status.requestDestroy ↔ t.repeat_count = 1
    by_cases hone : t.repeat_count - 1 = 0
    · rw [if_pos hone]
      simp only [true_iff]
      omega
    · rw [if_neg hone]
      constructor
      · intro hst
        exact absurd hst h
      · intro h1'
        omega
  · rw [hs_timer_decrement_step]
    split
    · simp
    · exact le_refl _

/-- Witness for C5 at a concrete `RUNNING` timer with `repeat_count = 5`. -/
theorem decrement_spec_witness :
    (hs_timer_decrement_step ⟨none, .running, some 1, 5, 100, none⟩).repeat_count = 5 - 1 :=
  ((decrement_spec ⟨none, .running, some 1, 5, 100, none⟩ (by decide)).2.2.1
    (by norm_num) (by norm_num [UINT32_MAX])).1

/-- Claim C9: a firing on a `RUNNING` timer whose `repeat_count` is already 0
(reachable, since `hs_timer_set_repeat_count` accepts 0 on a `RUNNING` timer)
skips the decrement, still invokes the callback once more, and then tears the
object down because the post-callback check treats `repeat_count == 0` as a
teardown condition — so setting the count to 0 yields one further firing, not
zero. -/
theorem zero_repeat_fires_once (al : Option Itimerspec) (c ms : Nat)
    (ud : Option Nat) (ok : Bool) (rc0 : Nat) :
    hs_timer_decrement_step ⟨al, .running, some c, 0, ms, ud⟩ =
      ⟨al, .running, some c, 0, ms, ud⟩ ∧
    hs_timer_thread (some ⟨al, .running, some c, 0, ms, ud⟩) ok = (true, none) ∧
    hs_timer_set_repeat_count (some ⟨al, .running, some c, rc0, ms, ud⟩) 0 =
      (0, some ⟨al, .running, some c, 0, ms, ud⟩) :=
  ⟨rfl, rfl, rfl⟩

/-- Iterating the firing handler on an already-freed object never fires and
stays freed. -/
theorem run_none (ok : Bool) : ∀ k, hs_timer_run none ok k = (0, none)
  | 0 => rfl
  | k + 1 => by
    simp [hs_timer_run, hs_timer_thread, run_none ok k]

/-- One firing of a `RUNNING` timer with a finite positive count and a set
callback: the callback is invoked; at count 1 the object is torn down,
otherwise the count drops by one and a fresh one-shot for `timeout_ms` is
programmed (when `timer_settime` succeeds; its result is ignored). -/
theorem thread_step_running (al : Option Itimerspec) (c rc ms : Nat)
    (ud : Option Nat) (ok : Bool) (h1 : 0 < rc) (h2 : rc < UINT32_MAX) :
    hs_timer_thread (some ⟨al, .running, some c, rc, ms, ud⟩) ok =
      if rc = 1 then (true, none)
      else (true, some ⟨if ok then some ⟨0, 0, ms / 1000, ms % 1000 * 1000000⟩ else al,
                        .running, some c, rc - 1, ms, ud⟩) := by
  rcases rc with _ | rc
  · omega
  · rcases rc with _ | rc
    · simp [hs_timer_thread, hs_timer_decrement_step, UINT32_MAX]
    · have h0 : (0 < rc + 1 + 1 ∧ rc + 1 + 1 < UINT32_MAX) := ⟨Nat.succ_pos _, h2⟩
      have hne : ¬ (rc + 1 + 1 = 1) := by omega
      rw [hs_timer_thread, if_neg (by decide : ¬ (Status.running = Status.requestDestroy))]
      rw [hs_timer_decrement_step]
      simp only [if_pos h0, if_neg hne]
      simp [hs_timer_ms_to_timespec_one_shot]

/-- A `RUNNING` timer with a set callback and finite positive count `N` fires
exactly `N` times under `N` iterations of the handler and is then freed. -/
theorem run_exact (ok : Bool) (c : Nat) :
    ∀ N, 1 ≤ N → N < UINT32_MAX →
      ∀ (al : Option Itimerspec) (ms : Nat) (ud : Option Nat),
        hs_timer_run (some ⟨al, .running, some c, N, ms, ud⟩) ok N = (N, none)
  | 0, h1, _, _, _, _ => absurd h1 (by omega)
  | 1, _, _, al, ms, ud => by
    have hstep := thread_step_running al c 1 ms ud ok (by omega)
      (by norm_num [UINT32_MAX])
    rw [if_pos rfl] at hstep
    simp [hs_timer_run, hstep, run_none ok 0]
  | N + 2, _, h2, al, ms, ud => by
    have hstep := thread_step_running al c (N + 2) ms ud ok (by omega) h2
    rw [if_neg (by omega : ¬ (N + 2 = 1))] at hstep
    have e : N + 2 - 1 = N + 1 := by omega
    rw [e] at hstep
    have ih := run_exact ok c (N + 1) (by omega) (by omega)
      (if ok then some ⟨0, 0, ms / 1000, ms % 1000 * 1000000⟩ else al) ms ud
    rw [hs_timer_run]
    simp only [hstep, ih]
    simp
    omega

/-- Claim C2: for every finite repeat count `1 ≤ N < UINT32_MAX`, a timer
running with `repeat_count = N` and a set callback — the state `hs_timer_init`
establishes on success — has its firing handler invoke the callback exactly
`N` times over `N` firings, after which the handler itself tears the object
down (deletes the POSIX timer, destroys the mutex, frees the memory) with no
explicit destroy call. -/
theorem timer_fires_exactly_N (N : Nat) (h1 : 1 ≤ N) (h2 : N < UINT32_MAX)
    (al : Option Itimerspec) (c ms : Nat) (ud : Option Nat) (ok : Bool) :
    hs_timer_run (some ⟨al, .running, some c, N, ms, ud⟩) ok N = (N, none) :=
  run_exact ok c N h1 h2 al ms ud

/-- Witness for C2 at `N = 3`. -/
theorem timer_fires_exactly_N_witness :
    hs_timer_run (some ⟨none, .running, some 1, 3, 10, none⟩) true 3 = (3, none) :=
  timer_fires_exactly_N 3 (by norm_num) (by norm_num [UINT32_MAX]) none 1 10 none true
